import Mathlib

/-!
Verification of the client-side authentication session lifecycle of
react-jwt-fast. The definitions below are a shallow embedding of
src/context/AuthContext.tsx (the Session State Holder),
src/components/ProtectedRoute.tsx (the Route Guard), and the submit
handlers of src/pages/Login.tsx and src/pages/Register.tsx.

Network calls (the Token Issuer at POST /login, the registration endpoint
at POST /register, and the Token Validator at GET /users/me) are modelled
by an environment of response functions; localStorage is modelled as a
total map from keys to optional string values. Each UI operation becomes a
function from session state (plus environment) to session state, returning
Except when the corresponding TypeScript function can reject its promise.
-/

/-- User profile returned by the backend, from src/types/index.ts. -/
structure User where
  id : Nat
  username : String
  email : String
deriving DecidableEq, Repr

/-- Error payload of a failed request: the optional detail string of the
FastAPI error body, as read by axiosError.response?.data?.detail. -/
structure ApiError where
  detail : Option String
deriving DecidableEq, Repr

/-- Browser localStorage: a total map from string keys to optional string
values. -/
abbrev Storage := String → Option String

/-- localStorage.getItem. -/
def Storage.getItem (st : Storage) (k : String) : Option String :=
  st k

/-- localStorage.setItem. -/
def Storage.setItem (st : Storage) (k v : String) : Storage :=
  fun k2 => if k2 = k then some v else st k2

/-- localStorage.removeItem. -/
def Storage.removeItem (st : Storage) (k : String) : Storage :=
  fun k2 => if k2 = k then none else st k2

/-- Server behaviour for one round of requests: responses of the Token
Validator (GET /users/me given a bearer token), the Token Issuer
(POST /login given username and password, returning the access_token
string on success), and the registration endpoint (POST /register). -/
structure Env where
  usersMe : String → Except ApiError User
  loginApi : String → String → Except ApiError String
  registerApi : String → String → String → Except ApiError User

/-- Client session state held by AuthProvider: the in-memory user and
token React state, the isLoading flag, and the localStorage contents. -/
structure AuthState where
  user : Option User
  token : Option String
  isLoading : Bool
  storage : Storage

/-- fetchUserData from AuthContext.tsx (lines 39-58): GET /users/me with
the bearer token; on success store the resolved user; on any failure
remove the persisted token and clear the in-memory token (the user field
is not touched by the catch block); finally clear isLoading. The
TypeScript function catches all of its own errors, so it always resolves;
hence the plain AuthState result. -/
def fetchUserData (env : Env) (authToken : String) (s : AuthState) : AuthState :=
  match env.usersMe authToken with
  | Except.ok u =>
      { s with user := some u, isLoading := false }
  | Except.error _ =>
      { s with storage := s.storage.removeItem "access_token",
               token := none, isLoading := false }

/-- login from AuthContext.tsx (lines 60-89): POST /login; on success
persist the access_token to localStorage, set the in-memory token, then
await fetchUserData; on failure of the POST, rethrow the error. -/
def login (env : Env) (username password : String) (s : AuthState) :
    Except ApiError AuthState :=
  match env.loginApi username password with
  | Except.error e => Except.error e
  | Except.ok access_token =>
      Except.ok (fetchUserData env access_token
        { s with storage := s.storage.setItem "access_token" access_token,
                 token := some access_token })

/-- register from AuthContext.tsx (lines 91-112): POST /register; on
success auto-login with the same username and password; any failure of
either step is rethrown. -/
def register (env : Env) (username email password : String) (s : AuthState) :
    Except ApiError AuthState :=
  match env.registerApi username email password with
  | Except.error e => Except.error e
  | Except.ok _ => login env username password s

/-- logout from AuthContext.tsx (lines 114-123): remove the persisted
token and clear the in-memory user and token. -/
def logout (s : AuthState) : AuthState :=
  { s with storage := s.storage.removeItem "access_token",
           user := none, token := none }

/-- The initialization effect of AuthProvider (lines 22-37): starting from
the initial React state (no user, no token, isLoading true), read any
persisted token; if present, set the in-memory token and fetch the user
data with it; if absent, just clear isLoading. -/
def initSession (env : Env) (st : Storage) : AuthState :=
  match st.getItem "access_token" with
  | some storedToken =>
      fetchUserData env storedToken
        { user := none, token := some storedToken, isLoading := true, storage := st }
  | none =>
      { user := none, token := none, isLoading := false, storage := st }

/-- What the Route Guard can render. -/
inductive RenderResult where
  | loadingPlaceholder
  | redirectToLogin
  | protectedContent
deriving DecidableEq, Repr

/-- ProtectedRoute from src/components/ProtectedRoute.tsx (lines 18-33):
while isLoading, render the loading placeholder; then, if user or token is
absent, redirect to /login; otherwise render the protected children. -/
def ProtectedRoute (user : Option User) (isLoading : Bool) (token : Option String) :
    RenderResult :=
  if isLoading then RenderResult.loadingPlaceholder
  else if user.isNone || token.isNone then RenderResult.redirectToLogin
  else RenderResult.protectedContent

/-- Outcome of the Login page submit handler. -/
inductive LoginOutcome where
  | navigateDashboard
  | showError (msg : String)
deriving DecidableEq, Repr

/-- handleSubmit from src/pages/Login.tsx (lines 19-41): await login; on
resolution navigate to /dashboard; on rejection display the detail of the
error response, or the generic fallback message. -/
def LoginPage.handleSubmit (env : Env) (username password : String) (s : AuthState) :
    LoginOutcome × AuthState :=
  match login env username password s with
  | Except.ok s2 => (LoginOutcome.navigateDashboard, s2)
  | Except.error e =>
      (LoginOutcome.showError (e.detail.getD "Login failed. Please try again."), s)

/-- Outcome of the Register page submit handler. -/
inductive RegisterOutcome where
  | validationError (msg : String)
  | navigateDashboard
  | showError (msg : String)
deriving DecidableEq, Repr

/-- handleSubmit from src/pages/Register.tsx (lines 21-56): client-side
validation first (password match, then minimum length), returning without
any network call when it fails; otherwise await register and navigate or
display the error. -/
def RegisterPage.handleSubmit (env : Env)
    (username email password confirmPassword : String) (s : AuthState) :
    RegisterOutcome × AuthState :=
  if password ≠ confirmPassword then
    (RegisterOutcome.validationError "Passwords do not match", s)
  else if password.length < 6 then
    (RegisterOutcome.validationError "Password must be at least 6 characters", s)
  else
    match register env username email password s with
    | Except.ok s2 => (RegisterOutcome.navigateDashboard, s2)
    | Except.error e =>
        (RegisterOutcome.showError (e.detail.getD "Registration failed. Please try again."), s)

/-- Session-level operations a client run can perform after
initialization. -/
inductive Op where
  | loginOp (username password : String)
  | registerOp (username email password : String)
  | logoutOp

/-- Effect of one operation on the session state: a rejected login or
register leaves the state as the Session State Holder left it (for a
rejection of the issuer itself that is the untouched prior state). -/
def applyOp (env : Env) (op : Op) (s : AuthState) : AuthState :=
  match op with
  | Op.loginOp u p =>
      match login env u p s with
      | Except.ok s2 => s2
      | Except.error _ => s
  | Op.registerOp u em p =>
      match register env u em p s with
      | Except.ok s2 => s2
      | Except.error _ => s
  | Op.logoutOp => logout s

/-- Run a list of operations, each against its own server behaviour. -/
def run (s : AuthState) : List (Env × Op) → AuthState
  | [] => s
  | (env, op) :: rest => run (applyOp env op s) rest

/-- A run is good when login and register are only invoked from states
with no populated user (the normal logged-out entry points). -/
def GoodRun : AuthState → List (Env × Op) → Prop
  | _, [] => True
  | s, (env, op) :: rest =>
      (match op with
       | Op.loginOp _ _ => s.user = none
       | Op.registerOp _ _ _ => s.user = none
       | Op.logoutOp => True) ∧ GoodRun (applyOp env op s) rest

/-- Token t resolves to user u under one of the server behaviours in
envs. -/
def ValidatedBy (envs : List Env) (t : String) (u : User) : Prop :=
  ∃ env, env ∈ envs ∧ env.usersMe t = Except.ok u

/-- The session invariant relative to the server behaviours seen so far:
a populated user comes with a present token validated to that user, and a
present token comes with a populated user it validates to. -/
def SessionInv (envs : List Env) (s : AuthState) : Prop :=
  (∀ u, s.user = some u → ∃ t, s.token = some t ∧ ValidatedBy envs t u) ∧
  (∀ t, s.token = some t → ∃ u, s.user = some u ∧ ValidatedBy envs t u)

/-- A sample user for concrete runs. -/
def u0 : User := { id := 1, username := "alice", email := "alice@example.com" }

/-- A server behaviour that accepts every request: every token resolves to
u0 and the issuer returns token t1. -/
def envGood : Env :=
  { usersMe := fun _ => Except.ok u0
    loginApi := fun _ _ => Except.ok "t1"
    registerApi := fun _ _ _ => Except.ok u0 }

/-- A server behaviour whose issuer succeeds with token t1 but whose
validator rejects every token. -/
def envFetchFail : Env :=
  { usersMe := fun _ => Except.error { detail := none }
    loginApi := fun _ _ => Except.ok "t1"
    registerApi := fun _ _ _ => Except.ok u0 }

/-- A server behaviour that rejects every request. -/
def envReject : Env :=
  { usersMe := fun _ => Except.error { detail := some "Could not validate credentials" }
    loginApi := fun _ _ => Except.error { detail := some "Incorrect username or password" }
    registerApi := fun _ _ _ => Except.error { detail := some "Username or email already registered" } }

/-- A server behaviour whose registration succeeds but whose issuer
rejects the auto-login. -/
def envLoginFail : Env :=
  { usersMe := fun _ => Except.error { detail := none }
    loginApi := fun _ _ => Except.error { detail := some "Incorrect username or password" }
    registerApi := fun _ _ _ => Except.ok u0 }

/-- A storage holding token t0 under the access_token key and nothing
else. -/
def storage0 : Storage :=
  fun k => if k = "access_token" then some "t0" else none

/-- The empty storage. -/
def storageEmpty : Storage := fun _ => none

/-- A sample quiescent authenticated state over storage0. -/
def sampleState : AuthState :=
  { user := some u0, token := some "t0", isLoading := false, storage := storage0 }

/-! ## Storage lemmas -/

theorem Storage.getItem_setItem_self (st : Storage) (k v : String) :
    (st.setItem k v).getItem k = some v := by
  simp [Storage.setItem, Storage.getItem]

theorem Storage.getItem_setItem_ne (st : Storage) (k k2 v : String) (h : k2 ≠ k) :
    (st.setItem k v).getItem k2 = st.getItem k2 := by
  simp [Storage.setItem, Storage.getItem, h]

theorem Storage.getItem_removeItem_self (st : Storage) (k : String) :
    (st.removeItem k).getItem k = none := by
  simp [Storage.removeItem, Storage.getItem]

theorem Storage.getItem_removeItem_ne (st : Storage) (k k2 : String) (h : k2 ≠ k) :
    (st.removeItem k).getItem k2 = st.getItem k2 := by
  simp [Storage.removeItem, Storage.getItem, h]

theorem Storage.removeItem_setItem (st : Storage) (k v : String) :
    (st.setItem k v).removeItem k = st.removeItem k := by
  funext k2
  simp only [Storage.removeItem, Storage.setItem]
  split <;> rfl

theorem Storage.removeItem_removeItem (st : Storage) (k : String) :
    (st.removeItem k).removeItem k = st.removeItem k := by
  funext k2
  simp only [Storage.removeItem]
  split <;> rfl

/-! ## Claim C2: the Route Guard is a pure function of the session state -/

/-- C2: ProtectedRoute is a pure function of (user, token, isLoading):
while isLoading it renders the loading placeholder (so neither protected
content nor a redirect); once isLoading is false it renders the protected
content when both user and token are present, and otherwise redirects to
the login entry point. -/
theorem protectedRoute_pure_cases (user : Option User) (token : Option String)
    (isLoading : Bool) :
    (isLoading = true →
      ProtectedRoute user isLoading token = RenderResult.loadingPlaceholder) ∧
    (isLoading = false → user ≠ none → token ≠ none →
      ProtectedRoute user isLoading token = RenderResult.protectedContent) ∧
    (isLoading = false → (user = none ∨ token = none) →
      ProtectedRoute user isLoading token = RenderResult.redirectToLogin) := by
  refine ⟨fun h => by simp [ProtectedRoute, h], fun h hu ht => ?_, fun h hut => ?_⟩
  · simp [ProtectedRoute, h, Option.isNone_iff_eq_none, hu, ht]
  · rcases hut with hu | ht
    · simp [ProtectedRoute, h, hu]
    · simp [ProtectedRoute, h, ht]

/-- Witness for C2 at concrete session states. -/
theorem protectedRoute_pure_cases_witness :
    (true = true) ∧ (false = false) ∧
    ((some u0 : Option User) ≠ none) ∧ ((some "t0" : Option String) ≠ none) ∧
    ((none : Option User) = none ∨ (some "t0" : Option String) = none) ∧
    ProtectedRoute (some u0) true (some "t0") = RenderResult.loadingPlaceholder ∧
    ProtectedRoute (some u0) false (some "t0") = RenderResult.protectedContent ∧
    ProtectedRoute none false (some "t0") = RenderResult.redirectToLogin :=
  ⟨rfl, rfl, by simp, by simp, Or.inl rfl,
   (protectedRoute_pure_cases (some u0) (some "t0") true).1 rfl,
   (protectedRoute_pure_cases (some u0) (some "t0") false).2.1 rfl (by simp) (by simp),
   (protectedRoute_pure_cases none (some "t0") false).2.2 rfl (Or.inl rfl)⟩

/-! ## Claim C3: initialization with a rejected persisted token -/

/-- C3: when the persisted token is present but the Token Validator
rejects it, session initialization ends unauthenticated: no user, no
in-memory token, isLoading false, and the persisted slot cleared. -/
theorem initSession_invalid_token (env : Env) (st : Storage) (t : String)
    (e : ApiError)
    (ht : st.getItem "access_token" = some t)
    (hv : env.usersMe t = Except.error e) :
    (initSession env st).user = none ∧
    (initSession env st).token = none ∧
    (initSession env st).isLoading = false ∧
    (initSession env st).storage.getItem "access_token" = none := by
  have h1 : initSession env st =
      { user := none, token := none, isLoading := false,
        storage := st.removeItem "access_token" } := by
    simp only [initSession, ht, fetchUserData, hv]
  rw [h1]
  exact ⟨rfl, rfl, rfl, Storage.getItem_removeItem_self st "access_token"⟩

/-- Witness for C3: storage0 holds token t0 and envReject rejects it. -/
theorem initSession_invalid_token_witness :
    storage0.getItem "access_token" = some "t0" ∧
    envReject.usersMe "t0" =
      Except.error { detail := some "Could not validate credentials" } ∧
    ((initSession envReject storage0).user = none ∧
     (initSession envReject storage0).token = none ∧
     (initSession envReject storage0).isLoading = false ∧
     (initSession envReject storage0).storage.getItem "access_token" = none) :=
  ⟨rfl, rfl, initSession_invalid_token envReject storage0 "t0" _ rfl rfl⟩

/-! ## Claim C4: a rejected login leaves the session untouched -/

/-- C4: when the Token Issuer rejects the login request, the login
operation rethrows exactly that error and the whole session state (user,
token, storage) is exactly as before the call. -/
theorem login_issuer_failure_preserves_state (env : Env) (u p : String)
    (s : AuthState) (e : ApiError) (h : env.loginApi u p = Except.error e) :
    login env u p s = Except.error e ∧ applyOp env (Op.loginOp u p) s = s := by
  have hl : login env u p s = Except.error e := by
    unfold login
    rw [h]
  refine ⟨hl, ?_⟩
  simp only [applyOp, hl]

/-- Witness for C4: envReject rejects the issuance out of sampleState. -/
theorem login_issuer_failure_preserves_state_witness :
    envReject.loginApi "alice" "pw" =
      Except.error { detail := some "Incorrect username or password" } ∧
    (login envReject "alice" "pw" sampleState =
      Except.error { detail := some "Incorrect username or password" } ∧
     applyOp envReject (Op.loginOp "alice" "pw") sampleState = sampleState) :=
  ⟨rfl, login_issuer_failure_preserves_state envReject "alice" "pw" sampleState _ rfl⟩

/-! ## Claim C6: logout clears everything and is idempotent -/

/-- C6: for every prior session state, logout leaves no in-memory token,
no user, and an empty persisted slot, and logout composed with logout
equals logout. -/
theorem logout_clears_and_idempotent (s : AuthState) :
    (logout s).user = none ∧ (logout s).token = none ∧
    (logout s).storage.getItem "access_token" = none ∧
    logout (logout s) = logout s := by
  refine ⟨rfl, rfl, Storage.getItem_removeItem_self _ _, ?_⟩
  simp only [logout, Storage.removeItem_removeItem]

/-! ## Claim C5: login persists then fetches; fetch failure clears token -/

/-- Counterexample to C5 as stated: out of an authenticated state, a
login whose issuance succeeds but whose profile fetch fails leaves the
previous user populated (the catch block of fetchUserData never clears
the user field), while the claim requires the user to be absent. -/
theorem login_fetch_failure_user_counterexample :
    (login envFetchFail "alice" "pw" sampleState).map AuthState.user
        = Except.ok (some u0) ∧
    (login envFetchFail "alice" "pw" sampleState).map AuthState.token
        = Except.ok none :=
  ⟨rfl, rfl⟩

/-- C5 (amended): on successful issuance, login persists the returned
token and sets the in-memory token, then performs the profile fetch; if
that fetch fails, the token is removed from storage, the in-memory token
cleared and isLoading cleared, while the user field is left exactly as it
was (hence absent whenever login started from a logged-out state). -/
theorem login_success_persists_then_fetches (env : Env) (u p : String)
    (s : AuthState) (tok : String) (e : ApiError)
    (hi : env.loginApi u p = Except.ok tok) :
    login env u p s = Except.ok (fetchUserData env tok
      { s with storage := s.storage.setItem "access_token" tok,
               token := some tok }) ∧
    (env.usersMe tok = Except.error e →
      login env u p s = Except.ok
        { s with storage := s.storage.removeItem "access_token",
                 token := none, isLoading := false }) := by
  have h1 : login env u p s = Except.ok (fetchUserData env tok
      { s with storage := s.storage.setItem "access_token" tok,
               token := some tok }) := by
    unfold login
    rw [hi]
  refine ⟨h1, fun hf => ?_⟩
  rw [h1]
  unfold fetchUserData
  rw [hf]
  simp only [Storage.removeItem_setItem]

/-- Witness for C5 amended: envFetchFail issues t1 and rejects its
validation, out of sampleState. -/
theorem login_success_persists_then_fetches_witness :
    envFetchFail.loginApi "alice" "pw" = Except.ok "t1" ∧
    envFetchFail.usersMe "t1" = Except.error { detail := none } ∧
    login envFetchFail "alice" "pw" sampleState = Except.ok
      { sampleState with
        storage := sampleState.storage.removeItem "access_token",
        token := none, isLoading := false } :=
  ⟨rfl, rfl,
   (login_success_persists_then_fetches envFetchFail "alice" "pw" sampleState "t1"
     { detail := none } rfl).2 rfl⟩

/-! ## Claim C7: register auto-logs-in and rethrows failures -/

/-- C7: register calls the registration endpoint; on success it performs
login with the same username and password (auto-login); a rejection of
either the registration call or the subsequent login is rethrown to the
caller unchanged. -/
theorem register_auto_login (env : Env) (u em p : String) (s : AuthState) :
    (∀ usr, env.registerApi u em p = Except.ok usr →
      register env u em p s = login env u p s) ∧
    (∀ e, env.registerApi u em p = Except.error e →
      register env u em p s = Except.error e) ∧
    (∀ usr e, env.registerApi u em p = Except.ok usr →
      env.loginApi u p = Except.error e →
      register env u em p s = Except.error e) := by
  refine ⟨fun usr h => ?_, fun e h => ?_, fun usr e h hl => ?_⟩
  · unfold register
    rw [h]
  · unfold register
    rw [h]
  · unfold register
    rw [h]
    unfold login
    rw [hl]

/-- Witness for C7 at three concrete server behaviours: a successful
registration, a rejected registration, and a registration whose
auto-login is rejected. -/
theorem register_auto_login_witness :
    envGood.registerApi "bob" "b@x.co" "pw123" = Except.ok u0 ∧
    envReject.registerApi "bob" "b@x.co" "pw123" =
      Except.error { detail := some "Username or email already registered" } ∧
    envLoginFail.registerApi "bob" "b@x.co" "pw123" = Except.ok u0 ∧
    envLoginFail.loginApi "bob" "pw123" =
      Except.error { detail := some "Incorrect username or password" } ∧
    register envGood "bob" "b@x.co" "pw123" sampleState =
      login envGood "bob" "pw123" sampleState ∧
    register envReject "bob" "b@x.co" "pw123" sampleState =
      Except.error { detail := some "Username or email already registered" } ∧
    register envLoginFail "bob" "b@x.co" "pw123" sampleState =
      Except.error { detail := some "Incorrect username or password" } :=
  ⟨rfl, rfl, rfl, rfl,
   (register_auto_login envGood "bob" "b@x.co" "pw123" sampleState).1 u0 rfl,
   (register_auto_login envReject "bob" "b@x.co" "pw123" sampleState).2.1 _ rfl,
   (register_auto_login envLoginFail "bob" "b@x.co" "pw123" sampleState).2.2 u0 _ rfl rfl⟩

/-! ## Claim C8: the single persistent storage key -/

theorem fetchUserData_storage_frame (env : Env) (t : String) (s : AuthState)
    (k : String) (hk : k ≠ "access_token") :
    (fetchUserData env t s).storage.getItem k = s.storage.getItem k := by
  unfold fetchUserData
  cases env.usersMe t with
  | ok u => rfl
  | error e => exact Storage.getItem_removeItem_ne _ _ _ hk

theorem login_storage_frame (env : Env) (u p : String) (s s2 : AuthState)
    (k : String) (hk : k ≠ "access_token")
    (h : login env u p s = Except.ok s2) :
    s2.storage.getItem k = s.storage.getItem k := by
  unfold login at h
  cases hl : env.loginApi u p with
  | error e =>
      rw [hl] at h
      cases h
  | ok tok =>
      rw [hl] at h
      injection h with h2
      rw [← h2, fetchUserData_storage_frame env tok _ k hk]
      exact Storage.getItem_setItem_ne s.storage "access_token" k tok hk

theorem applyOp_loginOp (env : Env) (u p : String) (s : AuthState) :
    applyOp env (Op.loginOp u p) s =
      match login env u p s with
      | Except.ok s2 => s2
      | Except.error _ => s := rfl

theorem applyOp_registerOp (env : Env) (u em p : String) (s : AuthState) :
    applyOp env (Op.registerOp u em p) s =
      match register env u em p s with
      | Except.ok s2 => s2
      | Except.error _ => s := rfl

theorem applyOp_logoutOp (env : Env) (s : AuthState) :
    applyOp env Op.logoutOp s = logout s := rfl

theorem applyOp_storage_frame (env : Env) (op : Op) (s : AuthState)
    (k : String) (hk : k ≠ "access_token") :
    (applyOp env op s).storage.getItem k = s.storage.getItem k := by
  cases op with
  | logoutOp => exact Storage.getItem_removeItem_ne _ _ _ hk
  | loginOp u p =>
      rw [applyOp_loginOp]
      cases hl : login env u p s with
      | ok s2 => exact login_storage_frame env u p s s2 k hk hl
      | error e => rfl
  | registerOp u em p =>
      rw [applyOp_registerOp]
      cases hr : register env u em p s with
      | error e => rfl
      | ok s2 =>
          unfold register at hr
          cases hreg : env.registerApi u em p with
          | error e =>
              rw [hreg] at hr
              cases hr
          | ok usr =>
              rw [hreg] at hr
              exact login_storage_frame env u p s s2 k hk hr

/-- C8: every session operation (initialization, profile fetch, login,
register, logout) leaves every storage key other than access_token
unchanged, and initialization with the access_token key absent yields the
logged-out state with the storage untouched. -/
theorem storage_single_key (env : Env) (st : Storage) (s : AuthState) (op : Op)
    (t k : String) (hk : k ≠ "access_token") :
    (initSession env st).storage.getItem k = st.getItem k ∧
    (fetchUserData env t s).storage.getItem k = s.storage.getItem k ∧
    (applyOp env op s).storage.getItem k = s.storage.getItem k ∧
    (st.getItem "access_token" = none →
      initSession env st =
        { user := none, token := none, isLoading := false, storage := st }) := by
  refine ⟨?_, fetchUserData_storage_frame env t s k hk,
          applyOp_storage_frame env op s k hk, fun h => ?_⟩
  · unfold initSession
    cases st.getItem "access_token" with
    | some tk => exact fetchUserData_storage_frame env tk _ k hk
    | none => rfl
  · simp only [initSession, h]

/-- Witness for C8 on the empty storage, where the absence clause also
fires. -/
theorem storage_single_key_witness :
    ("other_key" : String) ≠ "access_token" ∧
    storageEmpty.getItem "access_token" = none ∧
    ((initSession envGood storageEmpty).storage.getItem "other_key" =
        storageEmpty.getItem "other_key" ∧
     (fetchUserData envGood "t0" sampleState).storage.getItem "other_key" =
        sampleState.storage.getItem "other_key" ∧
     (applyOp envGood Op.logoutOp sampleState).storage.getItem "other_key" =
        sampleState.storage.getItem "other_key" ∧
     (storageEmpty.getItem "access_token" = none →
       initSession envGood storageEmpty =
         { user := none, token := none, isLoading := false,
           storage := storageEmpty })) :=
  ⟨by decide, rfl,
   storage_single_key envGood storageEmpty sampleState Op.logoutOp "t0" "other_key"
     (by decide)⟩

/-! ## Claim C9: login swallows profile-fetch failures -/

/-- C9: when the issuer succeeds but the profile fetch of the fresh token
fails, login still resolves (fetchUserData catches its own errors), the
resolved state has no token, and the Login page submit handler navigates
to the dashboard exactly as on a fully successful login. -/
theorem login_swallows_fetch_failure (env : Env) (u p : String) (s : AuthState)
    (tok : String) (e : ApiError)
    (hi : env.loginApi u p = Except.ok tok)
    (hf : env.usersMe tok = Except.error e) :
    (∃ s2, login env u p s = Except.ok s2) ∧
    (login env u p s).map AuthState.token = Except.ok none ∧
    (LoginPage.handleSubmit env u p s).1 = LoginOutcome.navigateDashboard := by
  have h1 : login env u p s = Except.ok (fetchUserData env tok
      { s with storage := s.storage.setItem "access_token" tok,
               token := some tok }) := by
    unfold login
    rw [hi]
  refine ⟨⟨_, h1⟩, ?_, ?_⟩
  · rw [h1]
    unfold fetchUserData
    rw [hf]
    rfl
  · unfold LoginPage.handleSubmit
    rw [h1]

/-- Witness for C9: envFetchFail issues t1 and rejects its validation. -/
theorem login_swallows_fetch_failure_witness :
    envFetchFail.loginApi "alice" "pw" = Except.ok "t1" ∧
    envFetchFail.usersMe "t1" = Except.error { detail := none } ∧
    ((∃ s2, login envFetchFail "alice" "pw" sampleState = Except.ok s2) ∧
     (login envFetchFail "alice" "pw" sampleState).map AuthState.token =
        Except.ok none ∧
     (LoginPage.handleSubmit envFetchFail "alice" "pw" sampleState).1 =
        LoginOutcome.navigateDashboard) :=
  ⟨rfl, rfl,
   login_swallows_fetch_failure envFetchFail "alice" "pw" sampleState "t1"
     { detail := none } rfl rfl⟩

/-! ## Claim C10: Register page client-side validation -/

/-- C10: when the password and confirmation differ, or the password is
shorter than 6 characters, the Register page submit handler sets the
corresponding validation message and returns without invoking register:
the result is independent of the server environment (no network request)
and the session state is unchanged. -/
theorem registerPage_validation_guard (env env2 : Env)
    (u em p c : String) (s : AuthState)
    (h : p ≠ c ∨ p.length < 6) :
    RegisterPage.handleSubmit env u em p c s =
      RegisterPage.handleSubmit env2 u em p c s ∧
    (RegisterPage.handleSubmit env u em p c s).2 = s ∧
    (RegisterPage.handleSubmit env u em p c s).1 =
      RegisterOutcome.validationError
        (if p ≠ c then "Passwords do not match"
         else "Password must be at least 6 characters") := by
  by_cases hpc : p = c
  · subst hpc
    have hlen : p.length < 6 := by
      rcases h with h1 | h2
      · exact absurd rfl h1
      · exact h2
    simp [RegisterPage.handleSubmit, hlen]
  · simp [RegisterPage.handleSubmit, hpc]

/-- Witness for C10 on a concrete mismatching pair of passwords. -/
theorem registerPage_validation_guard_witness :
    (("abc" : String) ≠ "abd" ∨ ("abc" : String).length < 6) ∧
    (RegisterPage.handleSubmit envGood "carol" "c@x.co" "abc" "abd" sampleState =
       RegisterPage.handleSubmit envReject "carol" "c@x.co" "abc" "abd" sampleState ∧
     (RegisterPage.handleSubmit envGood "carol" "c@x.co" "abc" "abd" sampleState).2 =
       sampleState ∧
     (RegisterPage.handleSubmit envGood "carol" "c@x.co" "abc" "abd" sampleState).1 =
       RegisterOutcome.validationError
         (if ("abc" : String) ≠ "abd" then "Passwords do not match"
          else "Password must be at least 6 characters")) :=
  ⟨Or.inl (by decide),
   registerPage_validation_guard envGood envReject "carol" "c@x.co" "abc" "abd"
     sampleState (Or.inl (by decide))⟩

/-! ## Claim C1: the session invariant -/

/-- Counterexample to C1 as stated: the state reached by initializing
with a valid persisted token (so the user becomes populated) and then
calling login with an issuance that succeeds but a profile fetch that
fails, has the user still populated while the token is absent: the catch
block of fetchUserData clears the token but not the user. -/
theorem session_invariant_counterexample :
    (run (initSession envGood storage0)
        [(envFetchFail, Op.loginOp "alice" "pw")]).user = some u0 ∧
    (run (initSession envGood storage0)
        [(envFetchFail, Op.loginOp "alice" "pw")]).token = none :=
  ⟨rfl, rfl⟩

theorem login_ok_cases (env : Env) (u p : String) (s s2 : AuthState)
    (h : login env u p s = Except.ok s2) :
    (∃ tok usr, env.usersMe tok = Except.ok usr ∧
      s2.user = some usr ∧ s2.token = some tok)
    ∨ (s2.user = s.user ∧ s2.token = none) := by
  unfold login at h
  cases hl : env.loginApi u p with
  | error e =>
      rw [hl] at h
      cases h
  | ok tok =>
      rw [hl] at h
      injection h with h2
      unfold fetchUserData at h2
      cases hf : env.usersMe tok with
      | ok usr =>
          rw [hf] at h2
          exact Or.inl ⟨tok, usr, hf, by rw [← h2], by rw [← h2]⟩
      | error e =>
          rw [hf] at h2
          exact Or.inr ⟨by rw [← h2], by rw [← h2]⟩

theorem sessionInv_mono (envs envs2 : List Env) (s : AuthState)
    (hsub : ∀ e, e ∈ envs → e ∈ envs2) (h : SessionInv envs s) :
    SessionInv envs2 s := by
  obtain ⟨h1, h2⟩ := h
  constructor
  · intro u hu
    obtain ⟨t, ht, env, henv, hval⟩ := h1 u hu
    exact ⟨t, ht, env, hsub env henv, hval⟩
  · intro t ht
    obtain ⟨u, hu, env, henv, hval⟩ := h2 t ht
    exact ⟨u, hu, env, hsub env henv, hval⟩

theorem sessionInv_logout (envs : List Env) (s : AuthState) :
    SessionInv envs (logout s) := by
  constructor
  · intro u hu
    simp [logout] at hu
  · intro t ht
    simp [logout] at ht

theorem sessionInv_login_ok (envs : List Env) (env : Env) (u p : String)
    (s s2 : AuthState) (hpre : s.user = none)
    (hl : login env u p s = Except.ok s2) :
    SessionInv (env :: envs) s2 := by
  rcases login_ok_cases env u p s s2 hl with ⟨tok, usr, hval, hu, ht⟩ | ⟨hu, ht⟩
  · constructor
    · intro u2 hu2
      rw [hu] at hu2
      injection hu2 with hu3
      subst hu3
      exact ⟨tok, ht, env, List.mem_cons_self env envs, hval⟩
    · intro t ht2
      rw [ht] at ht2
      injection ht2 with ht3
      subst ht3
      exact ⟨usr, hu, env, List.mem_cons_self env envs, hval⟩
  · constructor
    · intro u2 hu2
      rw [hu, hpre] at hu2
      cases hu2
    · intro t ht2
      rw [ht] at ht2
      cases ht2

theorem fetchUserData_ok_eq (env : Env) (t : String) (s : AuthState) (usr : User)
    (h : env.usersMe t = Except.ok usr) :
    fetchUserData env t s = { s with user := some usr, isLoading := false } := by
  unfold fetchUserData
  rw [h]

theorem fetchUserData_error_eq (env : Env) (t : String) (s : AuthState) (e : ApiError)
    (h : env.usersMe t = Except.error e) :
    fetchUserData env t s =
      { s with storage := s.storage.removeItem "access_token",
               token := none, isLoading := false } := by
  unfold fetchUserData
  rw [h]

theorem initSession_some_eq (env : Env) (st : Storage) (tk : String)
    (h : st.getItem "access_token" = some tk) :
    initSession env st = fetchUserData env tk
      { user := none, token := some tk, isLoading := true, storage := st } := by
  unfold initSession
  rw [h]

theorem initSession_none_eq (env : Env) (st : Storage)
    (h : st.getItem "access_token" = none) :
    initSession env st =
      { user := none, token := none, isLoading := false, storage := st } := by
  unfold initSession
  rw [h]

theorem sessionInv_init (env : Env) (st : Storage) :
    SessionInv [env] (initSession env st) := by
  cases hst : st.getItem "access_token" with
  | none =>
      rw [initSession_none_eq env st hst]
      constructor
      · intro u hu
        simp at hu
      · intro t ht
        simp at ht
  | some tk =>
      rw [initSession_some_eq env st tk hst]
      cases hv : env.usersMe tk with
      | ok usr =>
          rw [fetchUserData_ok_eq env tk _ usr hv]
          constructor
          · intro u2 hu2
            injection hu2 with hu3
            subst hu3
            exact ⟨tk, rfl, env, List.mem_cons_self env [], hv⟩
          · intro t ht2
            injection ht2 with ht3
            subst ht3
            exact ⟨usr, rfl, env, List.mem_cons_self env [], hv⟩
      | error e =>
          rw [fetchUserData_error_eq env tk _ e hv]
          constructor
          · intro u hu
            simp at hu
          · intro t ht
            simp at ht

theorem sessionInv_run (envs : List Env) (s : AuthState) (ops : List (Env × Op))
    (h : SessionInv envs s) (hg : GoodRun s ops) :
    SessionInv (ops.map Prod.fst ++ envs) (run s ops) := by
  induction ops generalizing envs s with
  | nil => exact h
  | cons hd rest ih =>
      obtain ⟨env, op⟩ := hd
      obtain ⟨hpre, hg2⟩ := hg
      have hstep : SessionInv (env :: envs) (applyOp env op s) := by
        cases op with
        | loginOp u p =>
            rw [applyOp_loginOp]
            cases hl : login env u p s with
            | error e =>
                exact sessionInv_mono envs (env :: envs) s
                  (fun e2 he2 => List.mem_cons_of_mem env he2) h
            | ok s2 => exact sessionInv_login_ok envs env u p s s2 hpre hl
        | registerOp u em p =>
            rw [applyOp_registerOp]
            cases hr : register env u em p s with
            | error e =>
                exact sessionInv_mono envs (env :: envs) s
                  (fun e2 he2 => List.mem_cons_of_mem env he2) h
            | ok s2 =>
                unfold register at hr
                cases hreg : env.registerApi u em p with
                | error e2 =>
                    rw [hreg] at hr
                    cases hr
                | ok usr =>
                    rw [hreg] at hr
                    exact sessionInv_login_ok envs env u p s s2 hpre hr
        | logoutOp => exact sessionInv_logout (env :: envs) s
      have h3 := ih (env :: envs) (applyOp env op s) hstep hg2
      have hgoal := sessionInv_mono (rest.map Prod.fst ++ (env :: envs))
          (env :: (rest.map Prod.fst ++ envs)) (run (applyOp env op s) rest)
          (fun e2 he2 => by
            simp only [List.mem_append, List.mem_cons] at he2 ⊢
            tauto) h3
      simpa only [run, List.map_cons, List.cons_append] using hgoal

/-- C1 (amended): over every run of operations in which login and
register are only invoked from states with no populated user, the final
state satisfies the invariant: the user is populated exactly when a token
is present, and then that token was successfully validated to that user
by one of the server behaviours seen during the run. Runs that invoke
login from an authenticated state can violate the original claim (see the
counterexample). -/
theorem session_user_iff_validated_token (env0 : Env) (st : Storage)
    (ops : List (Env × Op))
    (hg : GoodRun (initSession env0 st) ops) :
    (∀ u, (run (initSession env0 st) ops).user = some u →
      ∃ t, (run (initSession env0 st) ops).token = some t ∧
        ValidatedBy (ops.map Prod.fst ++ [env0]) t u) ∧
    (∀ t, (run (initSession env0 st) ops).token = some t →
      ∃ u, (run (initSession env0 st) ops).user = some u ∧
        ValidatedBy (ops.map Prod.fst ++ [env0]) t u) :=
  sessionInv_run [env0] (initSession env0 st) ops (sessionInv_init env0 st) hg

/-- Witness for C1 amended: the good run that starts from the valid
persisted token t0, logs out, and logs in again against the accepting
server. -/
theorem session_user_iff_validated_token_witness :
    GoodRun (initSession envGood storage0)
      [(envGood, Op.logoutOp), (envGood, Op.loginOp "alice" "pw")] ∧
    ((∀ u, (run (initSession envGood storage0)
        [(envGood, Op.logoutOp), (envGood, Op.loginOp "alice" "pw")]).user = some u →
      ∃ t, (run (initSession envGood storage0)
        [(envGood, Op.logoutOp), (envGood, Op.loginOp "alice" "pw")]).token = some t ∧
        ValidatedBy ([(envGood, Op.logoutOp), (envGood, Op.loginOp "alice" "pw")].map
          Prod.fst ++ [envGood]) t u) ∧
     (∀ t, (run (initSession envGood storage0)
        [(envGood, Op.logoutOp), (envGood, Op.loginOp "alice" "pw")]).token = some t →
      ∃ u, (run (initSession envGood storage0)
        [(envGood, Op.logoutOp), (envGood, Op.loginOp "alice" "pw")]).user = some u ∧
        ValidatedBy ([(envGood, Op.logoutOp), (envGood, Op.loginOp "alice" "pw")].map
          Prod.fst ++ [envGood]) t u)) :=
  ⟨⟨trivial, rfl, trivial⟩,
   session_user_iff_validated_token envGood storage0
     [(envGood, Op.logoutOp), (envGood, Op.loginOp "alice" "pw")]
     ⟨trivial, rfl, trivial⟩⟩
